import Mathlib

/-!
Verification of the Nexus Discord bot's anti-raid / anti-nuke event handlers.

The event handlers under `src/events` and the unnamed handler files
(`webhooksUpdate`, `guildBanRemove`, `emojiUpdate`) are shallowly embedded as
pure Lean functions.  Each handler is a function from the data it observes
(event payload, audit-log result, database state, injected fault oracles for
the network and database calls) to an output record listing the ordered side
effects it performs (channel deletions, tracker calls, database writes, log
lines at each level).  Timestamps are integers (JavaScript `Date.now()`
millisecond values); a single `now` value stands for every `Date.now()` call
inside one handler invocation.

Audit-log lookups are modelled as `Except Unit (Option AuditEntry)`:
`.error ()` covers a rejected `fetchAuditLogs` promise as well as a malformed
entry whose field access throws inside the same `try` block, `.ok none` is an
empty entry list, `.ok (some e)` a well-formed most-recent entry.
-/

set_option autoImplicit false

namespace Nexus

/-! ### Database model

The handlers write rows into a SQLite `logs` table and count recent rows with
`SELECT COUNT(*) ... WHERE guild_id = ? AND event_type = ? [AND executor_id = ?]
AND timestamp > ?`.  A row carries exactly the columns those queries touch;
free-form JSON `details` blobs are not consulted by any query and are omitted.
-/

structure LogRow where
  rowId : Nat
  guildId : String
  eventType : String
  userId : Option String
  executorId : Option String
  channelId : Option String
  emojiId : Option String
  timestamp : Int
deriving DecidableEq, Repr

structure Db where
  rows : List LogRow
  nextId : Nat
deriving DecidableEq, Repr

/-- `INSERT INTO logs ...`: append a row, allocating the next row id. -/
def Db.insert (db : Db) (g t : String) (u e c em : Option String) (ts : Int) : Db :=
  { rows := db.rows ++ [⟨db.nextId, g, t, u, e, c, em, ts⟩], nextId := db.nextId + 1 }

/-- Row predicate of the recent-activity count query:
`guild_id = g AND event_type = t AND (executor_id = ex, when filtered)
AND timestamp > cutoff` (strict). -/
def rowMatches (g t : String) (ex : Option String) (cutoff : Int) (r : LogRow) : Bool :=
  r.guildId == g && r.eventType == t &&
    (match ex with
     | none => true
     | some e => r.executorId == some e) &&
    decide (cutoff < r.timestamp)

/-- `SELECT COUNT(*) FROM logs WHERE ... AND timestamp > cutoff`. -/
def countQuery (db : Db) (g t : String) (ex : Option String) (cutoff : Int) : Nat :=
  (db.rows.filter (rowMatches g t ex cutoff)).length

/-- Outcome of the `db.db.all` callback `(err, rows)` as the handlers branch on
it: a SQL error, a null/undefined `rows`, or a successful single COUNT row. -/
inductive CountReply
  | sqlErr
  | nullRows
  | ok (n : Nat)
deriving DecidableEq, Repr

/-- The handlers resolve the count promise with
`if (err || !rows) resolve(0) else resolve(rows[0].count)`. -/
def resolveCount : CountReply → Nat
  | .sqlErr => 0
  | .nullRows => 0
  | .ok n => n

/-- Fault injected into one `db.db.all` COUNT call. -/
inductive CountFault
  | sqlErr
  | nullRows
deriving DecidableEq, Repr

/-- The reply the count callback delivers: the injected fault if any,
otherwise the COUNT row computed from the current table. -/
def countReplyOf (fault : Option CountFault) (n : Nat) : CountReply :=
  match fault with
  | some .sqlErr => .sqlErr
  | some .nullRows => .nullRows
  | none => .ok n

/-- Equality of `Except` values is decidable when it is on both sides. -/
instance exceptDecEq {ε α : Type} [DecidableEq ε] [DecidableEq α] :
    DecidableEq (Except ε α)
  | .error a, .error b => decidable_of_iff (a = b) (by simp)
  | .error _, .ok _ => .isFalse (by simp)
  | .ok _, .error _ => .isFalse (by simp)
  | .ok a, .ok b => decidable_of_iff (a = b) (by simp)

/-- A well-formed most-recent audit-log entry. -/
structure AuditEntry where
  targetId : String
  executorId : String
  createdTimestamp : Int
deriving DecidableEq, Repr

/-! ### channelCreate handler (`src/events/channelCreate.js`)

The handler is embedded as a function returning the ordered list of effects it
performs.  `audit` is the value of `entry && entry.executor` after
`await auditLogPromise`: `some executorId` when the audit lookup yielded an
entry with an executor, `none` when the fetch failed (its `.catch` resolves it
to `null`), returned no entries, or returned an entry without an executor.
-/

/-- JavaScript `String.prototype.includes`: `needle` occurs as a contiguous
substring of `hay` (on character lists). -/
def containsSub (needle : List Char) : List Char → Bool
  | [] => needle.isEmpty
  | c :: cs => needle.isPrefixOf (c :: cs) || containsSub needle cs

def strIncludes (hay needle : String) : Bool :=
  containsSub needle.toList hay.toList

/-- A character matched by the negated class of the spam-name regular
expression: not an ASCII letter or digit, not whitespace, not a hyphen and
not an underscore. -/
def isSpamChar (c : Char) : Bool :=
  !(c.isAlphanum || c.isWhitespace || c == '-' || c == '_')

/-- The raid-name heuristic of channelCreate:
name contains "nuked", "raid" or "hacked", or matches the spam-name regular
expression, anchored at both ends: three or more spam characters and nothing
else. -/
def isRaidChannel (name : String) : Bool :=
  strIncludes name "nuked" || strIncludes name "raid" || strIncludes name "hacked" ||
    (decide (3 ≤ name.toList.length) && name.toList.all isSpamChar)

/-- One observable side effect of the channelCreate handler, in program
order. -/
inductive CCEffect
  | deleteChannel (reason : String)
  | trackAction (executorId : String)
  | monitorAction (executorId : String) (instantTrigger : Bool)
  | enhancedLog
  | modLogEmbed
deriving DecidableEq, Repr

structure ChannelCreateInput where
  /-- `backupManager.isRestoring(channel.guild.id)` -/
  restoring : Bool
  /-- `client.advancedAntiNuke` is set -/
  hasAntiNuke : Bool
  /-- `client.advancedAntiNuke.lockedGuilds.has(channel.guild.id)` -/
  locked : Bool
  /-- `client.eventActionTracker` is set -/
  hasTracker : Bool
  channelName : String
  /-- executor id from the awaited audit-log promise, if any -/
  audit : Option String
  /-- a mod-log channel is configured and present in the cache -/
  modLog : Bool
deriving DecidableEq, Repr

/-- The channelCreate `execute` body.  The lockdown branch always returns after
the delete attempt: `channel.delete(...).catch(...)` never rejects, so the
surrounding `catch (error)` fall-through to monitoring is unreachable.  The
anti-nuke phase runs only after `await auditLogPromise` and only when an
executor was attributed. -/
def channelCreateExec (i : ChannelCreateInput) : List CCEffect :=
  if i.restoring then
    []
  else if i.hasAntiNuke && i.locked then
    [.deleteChannel "Anti-Nuke: Channel created during lockdown"]
  else
    (if i.hasAntiNuke then
      match i.audit with
      | some execId =>
        (if i.hasTracker then [CCEffect.trackAction execId] else []) ++
          (if isRaidChannel i.channelName then
            [CCEffect.deleteChannel "Anti-Nuke: Raid channel detected",
             CCEffect.monitorAction execId true]
          else
            [CCEffect.monitorAction execId false])
      | none => []
    else []) ++
      ([CCEffect.enhancedLog] ++ (if i.modLog then [CCEffect.modLogEmbed] else []))

/-! ### webhooksUpdate handler (unnamed source file, `name: "webhooksUpdate"`)

`fetchWebhooks` models `channel.fetchWebhooks()`: `.ok size` on success,
`.error code` when it throws with that numeric `code`.  Code 50013 (missing
Manage Webhooks) warns and returns before the database insert; every other
fetch error is re-thrown to the outer catch, which logs it at error level.
The webhook count recorded in the JSON `details` blob is not consulted by any
query and is not kept in the row model.
-/

structure WebhooksUpdateInput where
  guildId : String
  channelId : String
  now : Int
  fetchWebhooks : Except Int Nat
  audit : Except Unit (Option AuditEntry)
  countFault : Option CountFault
deriving DecidableEq, Repr

structure WebhooksUpdateOutput where
  db : Db
  /-- the code-50013 "Missing Manage Webhooks permission" warning -/
  permWarned : Bool
  /-- `guild.fetchAuditLogs` was reached -/
  auditQueried : Bool
  /-- executor id logged by the attribution branch, if it was entered -/
  executorAttributed : Option String
  /-- the "Suspicious webhook update activity" warning fired -/
  suspiciousWarned : Bool
  /-- the inner `catch (auditError)` debug log fired -/
  debugLogged : Bool
  /-- the outer `catch (error)` error log fired -/
  errorLogged : Bool
deriving DecidableEq, Repr

/-- The webhooksUpdate `execute` body.  Attribution accepts any fresh entry:
the condition is `updateLog && Date.now() - updateLog.createdTimestamp < 5000`,
with no comparison of the entry target against the event channel. -/
def webhooksUpdateExec (i : WebhooksUpdateInput) (db : Db) : WebhooksUpdateOutput :=
  match i.fetchWebhooks with
  | .error code =>
    if code == 50013 then
      ⟨db, true, false, none, false, false, false⟩
    else
      ⟨db, false, false, none, false, false, true⟩
  | .ok _ =>
    let db1 := db.insert i.guildId "WEBHOOKS_UPDATE" none none (some i.channelId) none i.now
    match i.audit with
    | .error _ => ⟨db1, false, true, none, false, true, false⟩
    | .ok none => ⟨db1, false, true, none, false, false, false⟩
    | .ok (some e) =>
      if decide (i.now - e.createdTimestamp < 5000) then
        let cnt := resolveCount (countReplyOf i.countFault
          (countQuery db1 i.guildId "WEBHOOKS_UPDATE" none (i.now - 60000)))
        ⟨db1, false, true, some e.executorId, decide (10 < cnt), false, false⟩
      else
        ⟨db1, false, true, none, false, false, false⟩

/-! ### guildBanRemove handler (unnamed source file, `name: "guildBanRemove"`)

After inserting the UNBAN row with a null executor, the handler resolves the
audit log; on acceptance it looks up the most recent executor-less UNBAN row
for that user (`ORDER BY timestamp DESC LIMIT 1`), backfills its executor,
counts that executor's UNBAN rows in the trailing 60 s, and above 5 warns and,
if the engine is enabled, calls `advancedAntiNuke.handleMassAction`.
`getErr` injects a rejection of the `db.db.get` promise, which the inner
audit catch absorbs.
-/

/-- `SELECT id FROM logs WHERE guild_id = ? AND event_type = ? AND user_id = ?
AND executor_id IS NULL ORDER BY timestamp DESC LIMIT 1`: a row of maximal
timestamp among the matches (ties broken by list position, as SQLite leaves
tie order unspecified). -/
def findMostRecent (rows : List LogRow) (g u : String) : Option LogRow :=
  match rows.filter (fun r =>
      r.guildId == g && r.eventType == "UNBAN" && r.userId == some u &&
        r.executorId == none) with
  | [] => none
  | c :: cs => some (cs.foldl (fun best r => if best.timestamp < r.timestamp then r else best) c)

/-- `UPDATE logs SET executor_id = ? WHERE id = ?`. -/
def Db.updateExecutor (db : Db) (rid : Nat) (e : String) : Db :=
  { db with rows := db.rows.map (fun r =>
      if r.rowId == rid then { r with executorId := some e } else r) }

structure BanRemoveInput where
  guildId : String
  userId : String
  now : Int
  audit : Except Unit (Option AuditEntry)
  /-- the `db.db.get` most-recent-log lookup rejects -/
  getErr : Bool
  countFault : Option CountFault
  /-- `advancedAntiNuke.isEnabled(guild.id)` -/
  enabled : Bool
deriving DecidableEq, Repr

structure BanRemoveOutput where
  db : Db
  /-- executor id logged by the attribution branch, if it was entered -/
  executorAttributed : Option String
  /-- the "Suspicious mass unban activity" warning fired -/
  suspiciousWarned : Bool
  /-- `handleMassAction(guild, executor, "mass_unban", count)` call, if made -/
  massAction : Option (String × Nat)
  /-- the inner `catch (auditError)` debug log fired -/
  debugLogged : Bool
  /-- the outer `catch (error)` error log fired -/
  errorLogged : Bool
deriving DecidableEq, Repr

/-- The guildBanRemove `execute` body.  Attribution requires both
`banRemoveLog.target.id === user.id` and
`Date.now() - banRemoveLog.createdTimestamp < 5000`. -/
def guildBanRemoveExec (i : BanRemoveInput) (db : Db) : BanRemoveOutput :=
  let db1 := db.insert i.guildId "UNBAN" (some i.userId) none none none i.now
  match i.audit with
  | .error _ => ⟨db1, none, false, none, true, false⟩
  | .ok none => ⟨db1, none, false, none, false, false⟩
  | .ok (some e) =>
    if e.targetId == i.userId && decide (i.now - e.createdTimestamp < 5000) then
      if i.getErr then
        ⟨db1, some e.executorId, false, none, true, false⟩
      else
        let db2 :=
          match findMostRecent db1.rows i.guildId i.userId with
          | some r => db1.updateExecutor r.rowId e.executorId
          | none => db1
        let cnt := resolveCount (countReplyOf i.countFault
          (countQuery db2 i.guildId "UNBAN" (some e.executorId) (i.now - 60000)))
        if 5 < cnt then
          ⟨db2, some e.executorId, true,
            if i.enabled then some (e.executorId, cnt) else none, false, false⟩
        else
          ⟨db2, some e.executorId, false, none, false, false⟩
    else
      ⟨db1, none, false, none, false, false⟩

/-! ### emojiUpdate handler (`src/events/emojiUpdate.js`)

When the emoji name did not change, the `changes` list is empty and the whole
body (database insert and audit lookup included) is skipped.  The successful
attribution branch only emits a debug line naming the executor; the
`debugLogged` field here records solely the `catch (auditError)` branch.
-/

structure EmojiUpdateInput where
  guildId : String
  emojiId : String
  oldName : String
  newName : String
  now : Int
  audit : Except Unit (Option AuditEntry)
deriving DecidableEq, Repr

structure EmojiUpdateOutput where
  db : Db
  /-- executor id logged by the attribution branch, if it was entered -/
  executorAttributed : Option String
  /-- the inner `catch (auditError)` debug log fired -/
  debugLogged : Bool
  /-- the outer `catch (error)` error log fired -/
  errorLogged : Bool
deriving DecidableEq, Repr

/-- The emojiUpdate `execute` body.  Attribution requires both
`updateLog.target.id === newEmoji.id` and
`Date.now() - updateLog.createdTimestamp < 5000`. -/
def emojiUpdateExec (i : EmojiUpdateInput) (db : Db) : EmojiUpdateOutput :=
  if i.oldName == i.newName then
    ⟨db, none, false, false⟩
  else
    let db1 := db.insert i.guildId "EMOJI_UPDATE" none none none (some i.emojiId) i.now
    match i.audit with
    | .error _ => ⟨db1, none, true, false⟩
    | .ok none => ⟨db1, none, false, false⟩
    | .ok (some e) =>
      if e.targetId == i.emojiId && decide (i.now - e.createdTimestamp < 5000) then
        ⟨db1, some e.executorId, false, false⟩
      else
        ⟨db1, none, false, false⟩

/-! ### Escalation-policy state machine

Modelled from the spec: the Escalation Policy / Anti-Nuke Engine
(`utils/advancedAntiNuke.js`, referenced by the handlers through
`client.advancedAntiNuke` with its `lockedGuilds` set, `monitorAction`,
`isEnabled` and `handleMassAction`, and the external unlock path) is not among
the provided sources; only its callers are.  The step relation below follows
spec section 4.3: Normal to Monitoring on a soft-threshold crossing,
Normal/Monitoring to Lockdown on a hard-threshold crossing or an
instant-trigger heuristic match, and Lockdown back to Normal only via the
explicit external unlock, never by elapsed time or further platform events.
-/

/-- Modelled from the spec: the GuildSecurityState status enum
(Normal, Monitoring, Lockdown) of the missing engine source. -/
inductive SecStatus
  | normal
  | monitoring
  | lockdown
deriving DecidableEq, Repr

/-- Modelled from the spec: an input to the per-guild security state machine
of the missing engine source — threshold crossings, instant-trigger heuristic
matches, any other observed platform event, passage of time, and the explicit
administrative unlock. -/
inductive SecInput
  | softThreshold
  | hardThreshold
  | instantTrigger
  | platformEvent
  | timeElapsed (ms : Nat)
  | externalUnlock
deriving DecidableEq, Repr

/-- Modelled from the spec: one transition of the guild security state.  The
implementation file `utils/advancedAntiNuke.js` is missing from the provided
sources; this follows the transition rules of spec section 4.3 word for
word. -/
def secStep : SecStatus → SecInput → SecStatus
  | .normal, .softThreshold => .monitoring
  | .normal, .hardThreshold => .lockdown
  | .normal, .instantTrigger => .lockdown
  | .monitoring, .hardThreshold => .lockdown
  | .monitoring, .instantTrigger => .lockdown
  | .lockdown, .externalUnlock => .normal
  | s, _ => s

/-- The Lockdown Gate predicate: the guild is in the locked set exactly when
its status is Lockdown. -/
def isLocked (s : SecStatus) : Bool := s == .lockdown

/-- Run the state machine over a sequence of inputs. -/
def secRun (s : SecStatus) (evs : List SecInput) : SecStatus :=
  evs.foldl secStep s

/-! ### Derived views of the guildBanRemove escalation path

`banRemoveDbAfter` is the table as it stands when the mass-unban count query
runs (after the UNBAN insert and the executor backfill), and `recentUnbansOf`
is the count that query returns on a healthy database: the attributed
executor's UNBAN rows in the trailing 60 s window.
-/

def banRemoveDbAfter (i : BanRemoveInput) (db : Db) (e : AuditEntry) : Db :=
  let db1 := db.insert i.guildId "UNBAN" (some i.userId) none none none i.now
  match findMostRecent db1.rows i.guildId i.userId with
  | some r => db1.updateExecutor r.rowId e.executorId
  | none => db1

def recentUnbansOf (i : BanRemoveInput) (db : Db) (e : AuditEntry) : Nat :=
  countQuery (banRemoveDbAfter i db e) i.guildId "UNBAN" (some e.executorId) (i.now - 60000)

/-! ### Concrete fixtures used by the witness theorems -/

/-- Three UNBAN rows by executor x: at 50000 (inside the trailing 60 s window
for an evaluation instant of 100000), at 40000 (exactly on the cutoff) and at
39999 (older than the window). -/
def windowDb : Db :=
  ⟨[⟨0, "g", "UNBAN", some "u", some "x", none, none, 50000⟩,
    ⟨1, "g", "UNBAN", some "u", some "x", none, none, 40000⟩,
    ⟨2, "g", "UNBAN", some "u", some "x", none, none, 39999⟩], 3⟩

/-- Five UNBAN rows already attributed to executor x inside the window. -/
def massUnbanDb : Db :=
  ⟨[⟨0, "g", "UNBAN", some "u0", some "x", none, none, 99000⟩,
    ⟨1, "g", "UNBAN", some "u1", some "x", none, none, 99100⟩,
    ⟨2, "g", "UNBAN", some "u2", some "x", none, none, 99200⟩,
    ⟨3, "g", "UNBAN", some "u3", some "x", none, none, 99300⟩,
    ⟨4, "g", "UNBAN", some "u4", some "x", none, none, 99400⟩], 5⟩

/-- A sixth unban of user victim at 100000, attributed to executor x by a
fresh audit entry, with the engine enabled and a healthy database. -/
def massUnbanInput : BanRemoveInput :=
  ⟨"g", "victim", 100000, .ok (some ⟨"victim", "x", 99950⟩), false, none, true⟩

/-! ## Claim theorems -/

/-- C1: the claim says mitigation of a raid-named channel is not blocked on
the audit-log attribution and occurs even when the lookup fails or yields no
executor.  The code contradicts this (and its own comments saying NO WAITING
for audit logs): it awaits the audit promise first, and the whole mitigation
branch sits inside the executor-present conditional.  At the failing input —
a channel named raid, anti-nuke engine present, guild not locked, audit
lookup failed — the handler performs no deletion and no anti-nuke trigger at
all: its only effect is the enhanced-logging call. -/
theorem C1_raid_mitigation_blocked_on_audit :
    isRaidChannel "raid" = true ∧
      channelCreateExec ⟨false, true, false, true, "raid", none, false⟩ =
        [CCEffect.enhancedLog] := by
  decide

/-- C2 counterexample: a channelCreate event in a guild that is both in the
locked-guilds set and mid backup-restore produces no deletion at all — the
restore guard returns before the lockdown gate, so the claim as stated (every
event in a locked guild gets its channel deleted) is false. -/
theorem C2_counterexample_restore_skips_lockdown_gate :
    channelCreateExec ⟨true, true, true, true, "general", none, false⟩ = [] := by
  decide

/-- C2 amended: for every channelCreate event in a guild in the locked-guilds
set, provided no backup restore is in progress for that guild, the handler
deletes the channel and returns: the trace is exactly the lockdown deletion,
with no action tracking, no enhanced logging and no mod-log embed. -/
theorem C2_locked_guild_deletes_and_skips (i : ChannelCreateInput)
    (hres : i.restoring = false) (han : i.hasAntiNuke = true) (hlock : i.locked = true) :
    channelCreateExec i =
      [CCEffect.deleteChannel "Anti-Nuke: Channel created during lockdown"] := by
  simp [channelCreateExec, hres, han, hlock]

/-- C2 witness: the amended statement at a concrete locked-guild event. -/
theorem C2_locked_guild_deletes_and_skips_witness :
    channelCreateExec ⟨false, true, true, true, "general", none, false⟩ =
      [CCEffect.deleteChannel "Anti-Nuke: Channel created during lockdown"] :=
  C2_locked_guild_deletes_and_skips ⟨false, true, true, true, "general", none, false⟩ rfl rfl rfl

/-- C3 counterexample: a channelCreate event whose audit attribution failed
(no entry or no executor) — here even with a raid name — is not tracked at
all: the trace holds no trackAction effect, so no synthetic unattributed
bucket exists, and the claim as stated is false. -/
theorem C3_counterexample_unattributed_not_tracked :
    channelCreateExec ⟨false, true, false, true, "nuked", none, true⟩ =
      [CCEffect.enhancedLog, CCEffect.modLogEmbed] := by
  decide

/-- C3 amended: when audit-log attribution fails, the event is not tracked at
all — the handler invokes trackAction only when an executor was attributed,
and there is no unattributed bucket. -/
theorem C3_track_only_with_attributed_executor (i : ChannelCreateInput)
    (h : i.audit = none) :
    ∀ e, CCEffect.trackAction e ∉ channelCreateExec i := by
  intro e
  cases hres : i.restoring <;> cases han : i.hasAntiNuke <;> cases hl : i.locked <;>
    cases hm : i.modLog <;>
      simp [channelCreateExec, h, hres, han, hl, hm]

/-- C3 witness: the amended statement at a concrete unattributed event. -/
theorem C3_track_only_with_attributed_executor_witness :
    CCEffect.trackAction "u1" ∉
      channelCreateExec ⟨false, true, false, true, "general", none, true⟩ :=
  C3_track_only_with_attributed_executor ⟨false, true, false, true, "general", none, true⟩ rfl "u1"

/-- C4: once a guild is in Lockdown, no sequence of further inputs that does
not contain the explicit external unlock — platform events, threshold
crossings, instant triggers, elapsed time — ever removes it from the locked
state. -/
theorem C4_lockdown_no_auto_revert (s : SecStatus) (evs : List SecInput)
    (hs : isLocked s = true) (hno : SecInput.externalUnlock ∉ evs) :
    isLocked (secRun s evs) = true := by
  induction evs generalizing s with
  | nil => simpa [secRun] using hs
  | cons e es ih =>
    rw [secRun, List.foldl_cons]
    simp only [List.mem_cons, not_or] at hno
    refine ih (secStep s e) ?_ hno.2
    have hs' : s = SecStatus.lockdown := by
      cases s <;> first | rfl | simp [isLocked] at hs
    subst hs'
    cases e <;> first | exact absurd rfl hno.1 | rfl

/-- C4 witness: a locked guild stays locked across a platform event, an hour
of elapsed time, a hard-threshold crossing and an instant trigger. -/
theorem C4_lockdown_no_auto_revert_witness :
    isLocked (secRun SecStatus.lockdown
      [SecInput.platformEvent, SecInput.timeElapsed 3600000,
       SecInput.hardThreshold, SecInput.instantTrigger]) = true :=
  C4_lockdown_no_auto_revert SecStatus.lockdown
    [SecInput.platformEvent, SecInput.timeElapsed 3600000,
     SecInput.hardThreshold, SecInput.instantTrigger] (by decide) (by decide)

/-- C5: under a monotone clock (every logged timestamp at or before now), the
recent-activity count query counts exactly the rows of the right guild, event
type and (when filtered) executor whose timestamp lies strictly inside the
trailing 60-second window ending at now; and a row at or older than the
cutoff never satisfies the query predicate. -/
theorem C5_count_window_exact (db : Db) (g t : String) (ex : Option String) (now : Int)
    (hts : ∀ r ∈ db.rows, r.timestamp ≤ now) :
    countQuery db g t ex (now - 60000) =
      (db.rows.filter (fun r =>
        r.guildId == g && r.eventType == t &&
          (match ex with
           | none => true
           | some e => r.executorId == some e) &&
          (decide (now - 60000 < r.timestamp) && decide (r.timestamp ≤ now)))).length ∧
    ∀ r ∈ db.rows, r.timestamp ≤ now - 60000 → rowMatches g t ex (now - 60000) r = false := by
  constructor
  · unfold countQuery
    congr 1
    apply List.filter_congr
    intro r hr
    have h2 : decide (r.timestamp ≤ now) = true := decide_eq_true (hts r hr)
    simp [rowMatches, h2]
  · intro r hr hold
    have h3 : decide (now - 60000 < r.timestamp) = false :=
      decide_eq_false (not_lt.mpr hold)
    simp [rowMatches, h3]

/-- C5 witness: the window characterization on a table with one row inside
the window, one exactly on the cutoff and one older. -/
theorem C5_count_window_exact_witness :
    countQuery windowDb "g" "UNBAN" (some "x") (100000 - 60000) =
      (windowDb.rows.filter (fun r =>
        r.guildId == "g" && r.eventType == "UNBAN" &&
          (match some "x" with
           | none => true
           | some e => r.executorId == some e) &&
          (decide ((100000 : Int) - 60000 < r.timestamp) && decide (r.timestamp ≤ 100000)))).length ∧
    ∀ r ∈ windowDb.rows, r.timestamp ≤ 100000 - 60000 →
      rowMatches "g" "UNBAN" (some "x") (100000 - 60000) r = false :=
  C5_count_window_exact windowDb "g" "UNBAN" (some "x") 100000 (by decide)

/-- Helper: guildBanRemove attributes the executor when the entry target
matches the unbanned user and the entry is fresh. -/
theorem banRemove_attributed_some (bi : BanRemoveInput) (db : Db) (e : AuditEntry)
    (hb : bi.audit = .ok (some e)) (h1 : e.targetId = bi.userId)
    (h2 : bi.now - e.createdTimestamp < 5000) :
    (guildBanRemoveExec bi db).executorAttributed = some e.executorId := by
  simp [guildBanRemoveExec, hb, h1, h2]
  split <;> first | rfl | (split <;> rfl)

/-- Helper: guildBanRemove leaves the event unattributed when target or
freshness fails. -/
theorem banRemove_attributed_none (bi : BanRemoveInput) (db : Db) (e : AuditEntry)
    (hb : bi.audit = .ok (some e))
    (h : ¬(e.targetId = bi.userId ∧ bi.now - e.createdTimestamp < 5000)) :
    (guildBanRemoveExec bi db).executorAttributed = none := by
  by_cases h1 : e.targetId = bi.userId
  · have h2 : ¬(bi.now - e.createdTimestamp < 5000) := fun h2 => h ⟨h1, h2⟩
    simp [guildBanRemoveExec, hb, h1, h2]
  · simp [guildBanRemoveExec, hb, h1]

/-- Helper: webhooksUpdate attributes the executor of any fresh entry. -/
theorem webhooks_attributed_some (wi : WebhooksUpdateInput) (db : Db) (e : AuditEntry) (n : Nat)
    (hw : wi.audit = .ok (some e)) (hwf : wi.fetchWebhooks = .ok n)
    (h2 : wi.now - e.createdTimestamp < 5000) :
    (webhooksUpdateExec wi db).executorAttributed = some e.executorId := by
  simp [webhooksUpdateExec, hw, hwf, h2]

/-- Helper: webhooksUpdate leaves a stale entry unattributed. -/
theorem webhooks_attributed_none (wi : WebhooksUpdateInput) (db : Db) (e : AuditEntry) (n : Nat)
    (hw : wi.audit = .ok (some e)) (hwf : wi.fetchWebhooks = .ok n)
    (h2 : ¬(wi.now - e.createdTimestamp < 5000)) :
    (webhooksUpdateExec wi db).executorAttributed = none := by
  simp [webhooksUpdateExec, hw, hwf, h2]

/-- Helper: emojiUpdate attributes the executor when the entry target matches
the emoji and the entry is fresh. -/
theorem emoji_attributed_some (ei : EmojiUpdateInput) (db : Db) (e : AuditEntry)
    (he : ei.audit = .ok (some e)) (hen : ei.oldName ≠ ei.newName)
    (h1 : e.targetId = ei.emojiId) (h2 : ei.now - e.createdTimestamp < 5000) :
    (emojiUpdateExec ei db).executorAttributed = some e.executorId := by
  simp [emojiUpdateExec, he, hen, h1, h2]

/-- Helper: emojiUpdate leaves the event unattributed when target or
freshness fails. -/
theorem emoji_attributed_none (ei : EmojiUpdateInput) (db : Db) (e : AuditEntry)
    (he : ei.audit = .ok (some e)) (hen : ei.oldName ≠ ei.newName)
    (h : ¬(e.targetId = ei.emojiId ∧ ei.now - e.createdTimestamp < 5000)) :
    (emojiUpdateExec ei db).executorAttributed = none := by
  by_cases h1 : e.targetId = ei.emojiId
  · have h2 : ¬(ei.now - e.createdTimestamp < 5000) := fun h2 => h ⟨h1, h2⟩
    simp [emojiUpdateExec, he, hen, h1, h2]
  · simp [emojiUpdateExec, he, hen, h1]

/-- C6 counterexample: the webhooksUpdate handler accepts as actor an audit
entry whose target id (target9) differs from the observed channel id (chan1),
because its acceptance condition checks only freshness — so the claim that
attribution requires a target match in every handler is false. -/
theorem C6_counterexample_webhooks_accepts_mismatched_target :
    (webhooksUpdateExec ⟨"g", "chan1", 1000, Except.ok 2,
        Except.ok (some ⟨"target9", "exec5", 1000⟩), none⟩ ⟨[], 0⟩).executorAttributed =
      some "exec5" ∧ "target9" ≠ "chan1" := by
  decide

/-- C6 amended: guildBanRemove and emojiUpdate accept an audit entry as actor
exactly when its target id equals the event target id and its age is under
5000 ms; webhooksUpdate accepts exactly when the age is under 5000 ms, with
no target condition. -/
theorem C6_attribution_accept_conditions (e : AuditEntry) (db : Db)
    (bi : BanRemoveInput) (wi : WebhooksUpdateInput) (ei : EmojiUpdateInput) (n : Nat)
    (hb : bi.audit = .ok (some e)) (hw : wi.audit = .ok (some e))
    (hwf : wi.fetchWebhooks = .ok n)
    (he : ei.audit = .ok (some e)) (hen : ei.oldName ≠ ei.newName) :
    ((guildBanRemoveExec bi db).executorAttributed = some e.executorId ↔
      (e.targetId = bi.userId ∧ bi.now - e.createdTimestamp < 5000)) ∧
    ((webhooksUpdateExec wi db).executorAttributed = some e.executorId ↔
      wi.now - e.createdTimestamp < 5000) ∧
    ((emojiUpdateExec ei db).executorAttributed = some e.executorId ↔
      (e.targetId = ei.emojiId ∧ ei.now - e.createdTimestamp < 5000)) := by
  refine ⟨?_, ?_, ?_⟩
  · by_cases hc : e.targetId = bi.userId ∧ bi.now - e.createdTimestamp < 5000
    · exact iff_of_true (banRemove_attributed_some bi db e hb hc.1 hc.2) hc
    · refine iff_of_false ?_ hc
      rw [banRemove_attributed_none bi db e hb hc]
      simp
  · by_cases hc : wi.now - e.createdTimestamp < 5000
    · exact iff_of_true (webhooks_attributed_some wi db e n hw hwf hc) hc
    · refine iff_of_false ?_ hc
      rw [webhooks_attributed_none wi db e n hw hwf hc]
      simp
  · by_cases hc : e.targetId = ei.emojiId ∧ ei.now - e.createdTimestamp < 5000
    · exact iff_of_true (emoji_attributed_some ei db e he hen hc.1 hc.2) hc
    · refine iff_of_false ?_ hc
      rw [emoji_attributed_none ei db e he hen hc]
      simp

/-- C6 witness: the amended characterization at a concrete fresh entry. -/
theorem C6_attribution_accept_conditions_witness :
    (((guildBanRemoveExec ⟨"g", "t1", 1000, .ok (some ⟨"t1", "x", 900⟩), false, none, true⟩
        ⟨[], 0⟩).executorAttributed = some "x" ↔
      (("t1" : String) = "t1" ∧ (1000 : Int) - 900 < 5000)) ∧
    ((webhooksUpdateExec ⟨"g", "chan", 1000, .ok 2, .ok (some ⟨"t1", "x", 900⟩), none⟩
        ⟨[], 0⟩).executorAttributed = some "x" ↔
      (1000 : Int) - 900 < 5000) ∧
    ((emojiUpdateExec ⟨"g", "t1", "a", "b", 1000, .ok (some ⟨"t1", "x", 900⟩)⟩
        ⟨[], 0⟩).executorAttributed = some "x" ↔
      (("t1" : String) = "t1" ∧ (1000 : Int) - 900 < 5000))) :=
  C6_attribution_accept_conditions ⟨"t1", "x", 900⟩ ⟨[], 0⟩
    ⟨"g", "t1", 1000, .ok (some ⟨"t1", "x", 900⟩), false, none, true⟩
    ⟨"g", "chan", 1000, .ok 2, .ok (some ⟨"t1", "x", 900⟩), none⟩
    ⟨"g", "t1", "a", "b", 1000, .ok (some ⟨"t1", "x", 900⟩)⟩ 2
    rfl rfl rfl rfl (by decide)

/-- C7: when the audit-log lookup throws (permission denied, timeout,
malformed entry), each of the three handlers completes normally with exactly
the pre-audit database insert, no attribution, no escalation, the inner
debug log fired and the outer error log silent — the error is swallowed
inside the handler. -/
theorem C7_audit_error_swallowed (db : Db) (bi : BanRemoveInput) (wi : WebhooksUpdateInput)
    (ei : EmojiUpdateInput) (n : Nat)
    (hb : bi.audit = .error ()) (hw : wi.audit = .error ()) (hwf : wi.fetchWebhooks = .ok n)
    (he : ei.audit = .error ()) (hen : ei.oldName ≠ ei.newName) :
    guildBanRemoveExec bi db =
      ⟨db.insert bi.guildId "UNBAN" (some bi.userId) none none none bi.now,
        none, false, none, true, false⟩ ∧
    webhooksUpdateExec wi db =
      ⟨db.insert wi.guildId "WEBHOOKS_UPDATE" none none (some wi.channelId) none wi.now,
        false, true, none, false, true, false⟩ ∧
    emojiUpdateExec ei db =
      ⟨db.insert ei.guildId "EMOJI_UPDATE" none none none (some ei.emojiId) ei.now,
        none, true, false⟩ := by
  refine ⟨?_, ?_, ?_⟩ <;>
    simp [guildBanRemoveExec, webhooksUpdateExec, emojiUpdateExec, hb, hw, hwf, he, hen]

/-- C7 witness: the three handlers at concrete events whose audit lookup
throws. -/
theorem C7_audit_error_swallowed_witness :
    guildBanRemoveExec ⟨"g", "u", 1000, .error (), false, none, true⟩ ⟨[], 0⟩ =
      ⟨Db.insert ⟨[], 0⟩ "g" "UNBAN" (some "u") none none none 1000,
        none, false, none, true, false⟩ ∧
    webhooksUpdateExec ⟨"g", "chan", 1000, .ok 2, .error (), none⟩ ⟨[], 0⟩ =
      ⟨Db.insert ⟨[], 0⟩ "g" "WEBHOOKS_UPDATE" none none (some "chan") none 1000,
        false, true, none, false, true, false⟩ ∧
    emojiUpdateExec ⟨"g", "em", "a", "b", 1000, .error ()⟩ ⟨[], 0⟩ =
      ⟨Db.insert ⟨[], 0⟩ "g" "EMOJI_UPDATE" none none none (some "em") 1000,
        none, true, false⟩ :=
  C7_audit_error_swallowed ⟨[], 0⟩ ⟨"g", "u", 1000, .error (), false, none, true⟩
    ⟨"g", "chan", 1000, .ok 2, .error (), none⟩
    ⟨"g", "em", "a", "b", 1000, .error ()⟩ 2
    rfl rfl rfl rfl (by decide)

/-- C8: for an attributed, fresh unban on a healthy database, the engine call
handleMassAction is made if and only if the attributed executor count of
UNBAN rows in the trailing 60-second window strictly exceeds 5 and the
anti-nuke engine is enabled for the guild; a count of exactly 5, or a
disabled guild, never triggers it. -/
theorem C8_mass_unban_escalation_iff (bi : BanRemoveInput) (db : Db) (e : AuditEntry)
    (hb : bi.audit = .ok (some e)) (h1 : e.targetId = bi.userId)
    (h2 : bi.now - e.createdTimestamp < 5000) (h3 : bi.getErr = false)
    (h4 : bi.countFault = none) :
    (guildBanRemoveExec bi db).massAction ≠ none ↔
      (5 < recentUnbansOf bi db e ∧ bi.enabled = true) := by
  simp only [guildBanRemoveExec, hb, h1, h2, h3, h4, recentUnbansOf, banRemoveDbAfter,
    resolveCount, countReplyOf]
  simp [h1, h2]
  split
  next h5 => cases hEn : bi.enabled <;> simp [hEn, h5]
  next h5 => simp [h5]

/-- C8 witness: a sixth attributed unban within the window on an enabled
guild, where the escalation fires. -/
theorem C8_mass_unban_escalation_iff_witness :
    (guildBanRemoveExec massUnbanInput massUnbanDb).massAction ≠ none ↔
      (5 < recentUnbansOf massUnbanInput massUnbanDb ⟨"victim", "x", 99950⟩ ∧
        massUnbanInput.enabled = true) :=
  C8_mass_unban_escalation_iff massUnbanInput massUnbanDb ⟨"victim", "x", 99950⟩
    rfl rfl (by decide) rfl rfl

/-- C9: when fetching the webhooks of the channel throws, the webhooksUpdate
handler leaves the database unchanged and never reaches the audit query; with
error code 50013 it returns after the permission warning with no error log,
and with any other code the error reaches the outer catch and is logged. -/
theorem C9_webhooks_fetch_error (wi : WebhooksUpdateInput) (db : Db) (c : Int)
    (h : wi.fetchWebhooks = .error c) :
    (webhooksUpdateExec wi db).db = db ∧
    (webhooksUpdateExec wi db).auditQueried = false ∧
    (c = 50013 → webhooksUpdateExec wi db = ⟨db, true, false, none, false, false, false⟩) ∧
    (c ≠ 50013 → webhooksUpdateExec wi db = ⟨db, false, false, none, false, false, true⟩) := by
  by_cases hc : c = 50013 <;> simp [webhooksUpdateExec, h, hc]

/-- C9 witness: the permission-denied fetch error at a concrete event. -/
theorem C9_webhooks_fetch_error_witness :
    (webhooksUpdateExec ⟨"g", "chan", 1000, .error 50013, .ok none, none⟩ ⟨[], 0⟩).db = ⟨[], 0⟩ ∧
    (webhooksUpdateExec ⟨"g", "chan", 1000, .error 50013, .ok none, none⟩ ⟨[], 0⟩).auditQueried = false ∧
    ((50013 : Int) = 50013 →
      webhooksUpdateExec ⟨"g", "chan", 1000, .error 50013, .ok none, none⟩ ⟨[], 0⟩ =
        ⟨⟨[], 0⟩, true, false, none, false, false, false⟩) ∧
    ((50013 : Int) ≠ 50013 →
      webhooksUpdateExec ⟨"g", "chan", 1000, .error 50013, .ok none, none⟩ ⟨[], 0⟩ =
        ⟨⟨[], 0⟩, false, false, none, false, false, true⟩) :=
  C9_webhooks_fetch_error ⟨"g", "chan", 1000, .error 50013, .ok none, none⟩ ⟨[], 0⟩ 50013 rfl

/-- C10: a database fault in the count query (SQL error or null rows)
resolves the count to 0, so the suspicious-activity warning of
webhooksUpdate and the warning and handleMassAction escalation of
guildBanRemove can never fire on a database failure. -/
theorem C10_db_fault_never_escalates (f : CountFault) (wi : WebhooksUpdateInput)
    (bi : BanRemoveInput) (dbw dbb : Db)
    (hw : wi.countFault = some f) (hb : bi.countFault = some f) :
    (∀ n, resolveCount (countReplyOf (some f) n) = 0) ∧
    (webhooksUpdateExec wi dbw).suspiciousWarned = false ∧
    (guildBanRemoveExec bi dbb).suspiciousWarned = false ∧
    (guildBanRemoveExec bi dbb).massAction = none := by
  refine ⟨fun n => by cases f <;> rfl, ?_, ?_, ?_⟩
  · cases hf : wi.fetchWebhooks with
    | error c => simp [webhooksUpdateExec, hf, apply_ite]
    | ok n =>
      cases ha : wi.audit with
      | error u => simp [webhooksUpdateExec, hf, ha]
      | ok oe =>
        cases oe with
        | none => simp [webhooksUpdateExec, hf, ha]
        | some e =>
          cases f <;>
            simp [webhooksUpdateExec, hf, ha, hw, countReplyOf, resolveCount, apply_ite]
  · cases ha : bi.audit with
    | error u => simp [guildBanRemoveExec, ha]
    | ok oe =>
      cases oe with
      | none => simp [guildBanRemoveExec, ha]
      | some e =>
        cases f <;>
          simp [guildBanRemoveExec, ha, hb, countReplyOf, resolveCount, apply_ite]
  · cases ha : bi.audit with
    | error u => simp [guildBanRemoveExec, ha]
    | ok oe =>
      cases oe with
      | none => simp [guildBanRemoveExec, ha]
      | some e =>
        cases f <;>
          simp [guildBanRemoveExec, ha, hb, countReplyOf, resolveCount, apply_ite]

/-- C10 witness: a SQL error on the count query at events that would
otherwise have crossed both thresholds. -/
theorem C10_db_fault_never_escalates_witness :
    (∀ n, resolveCount (countReplyOf (some CountFault.sqlErr) n) = 0) ∧
    (webhooksUpdateExec ⟨"g", "chan", 1000, .ok 2, .ok (some ⟨"t", "x", 900⟩), some .sqlErr⟩
      ⟨[], 0⟩).suspiciousWarned = false ∧
    (guildBanRemoveExec ⟨"g", "victim", 100000, .ok (some ⟨"victim", "x", 99950⟩), false,
      some .sqlErr, true⟩ massUnbanDb).suspiciousWarned = false ∧
    (guildBanRemoveExec ⟨"g", "victim", 100000, .ok (some ⟨"victim", "x", 99950⟩), false,
      some .sqlErr, true⟩ massUnbanDb).massAction = none :=
  C10_db_fault_never_escalates CountFault.sqlErr
    ⟨"g", "chan", 1000, .ok 2, .ok (some ⟨"t", "x", 900⟩), some .sqlErr⟩
    ⟨"g", "victim", 100000, .ok (some ⟨"victim", "x", 99950⟩), false, some .sqlErr, true⟩
    ⟨[], 0⟩ massUnbanDb rfl rfl

end Nexus
